import Mathlib

/-!
Shallow embedding of the litmus-tests crate (src/litmus-tests/src/lib.rs).

Machine words (usize) are modelled as Nat. Each primitive operation is a
total function returning its result, the updated state, and the list of
memory events (volatile accesses and inline-assembly instructions) it
performs; the event list is the operation's instruction trace. Addresses
are Nat, with 0 playing the role of the null pointer. Heap allocation
(the address a leaked Box occupies) is modelled by an explicit heap with a
fresh-address counter that starts above 0, since a Rust Box is never null.
The build-time target_arch cfg selection is modelled by an explicit Arch
parameter: a cfg-gated block is present exactly when the arch matches.
-/

/-- Memory events a primitive can perform: the volatile read and write of
read_once and write_once, the three inline-assembly instructions appearing
in the source (dmb ish, mfence, stlr) plus the empty asm block acting as a
compiler-ordering fence, and two event kinds (a blocking wait, an I/O
wait) that no primitive of this crate ever emits, present so that
non-blocking claims can be stated over traces. -/
inductive Event where
  | readVolatile (val : Nat)
  | writeVolatile (val : Nat)
  | dmb_ish
  | mfence
  | stlr (val : Nat)
  | compilerFence
  | blockingWait
  | ioWait
  deriving DecidableEq

/-- Target architecture, the value of the target_arch cfg option at build
time. The source names aarch64 and x86_64; every other target string is
represented by the other constructor. -/
inductive Arch where
  | aarch64
  | x86_64
  | other (name : String)
  deriving DecidableEq

/-- Architectures for which the source provides an asm encoding of the
barrier and release store: the two named by cfg(target_arch = ...). -/
def Arch.supported (a : Arch) : Prop :=
  a = Arch.aarch64 ∨ a = Arch.x86_64

/-- SharedMem is a single shared machine word: pub struct
SharedMem(UnsafeCell of usize). Its state is the word it holds. -/
structure SharedMem where
  value : Nat
  deriving DecidableEq

/-- SharedMem::new(val): constructs a cell holding val. -/
def SharedMem.new (val : Nat) : SharedMem :=
  SharedMem.mk val

/-- SharedMem::read_once, the C READ_ONCE(): one volatile read of the
current contents; the cell is not modified. Returns the value read and
the event trace. -/
def SharedMem.read_once (m : SharedMem) : Nat × List Event :=
  (m.value, [Event.readVolatile m.value])

/-- SharedMem::write_once, the C WRITE_ONCE(): one volatile write of val.
Returns the updated cell and the event trace. -/
def SharedMem.write_once (_ : SharedMem) (val : Nat) : SharedMem × List Event :=
  (SharedMem.mk val, [Event.writeVolatile val])

/-- SharedMem::smp_mb, the C smp_mb(): two cfg-gated asm blocks, dmb ish
under cfg(target_arch = aarch64) and mfence under cfg(target_arch =
x86_64). A block's instruction is emitted exactly when the build arch
matches; the function takes no reference to any cell and returns unit, so
its whole effect is this trace. -/
def SharedMem.smp_mb (arch : Arch) : List Event :=
  (match arch with
    | Arch.aarch64 => [Event.dmb_ish]
    | _ => []) ++
  (match arch with
    | Arch.x86_64 => [Event.mfence]
    | _ => [])

/-- SharedMem::smp_store_release, the C smp_store_release(): under
cfg(target_arch = aarch64) a single stlr instruction storing val into the
cell; under cfg(target_arch = x86_64) an empty asm block (a compiler
fence) followed by write_once(val). On any other target both cfg blocks
are absent and the function body is empty: nothing is stored. -/
def SharedMem.smp_store_release (m : SharedMem) (arch : Arch) (val : Nat) :
    SharedMem × List Event :=
  let s1 : SharedMem × List Event :=
    match arch with
    | Arch.aarch64 => (SharedMem.mk val, [Event.stlr val])
    | _ => (m, [])
  match arch with
  | Arch.x86_64 =>
    let s2 := s1.1.write_once val
    (s2.1, s1.2 ++ (Event.compilerFence :: s2.2))
  | _ => s1

/-- Whether the crate builds for a given target architecture. The source
contains no compile_error invocation and no crate-level cfg gate: on a
target other than aarch64 and x86_64 the cfg-gated blocks simply vanish
and the rest of the crate (UnsafeCell, volatile accesses, RcuPtr) is
architecture-independent, so the build succeeds on every target. -/
def compiles (_ : Arch) : Bool :=
  true

/-- Which value a single event stores into the cell it targets, if any:
the volatile write of write_once and the stlr release store are the only
store events. -/
def Event.storeEffect : Event → Option Nat
  | Event.writeVolatile v => some v
  | Event.stlr v => some v
  | _ => none

/-- Replays an event trace against a cell: store events overwrite the
contents, every other event leaves them unchanged. -/
def applyTrace (m : SharedMem) : List Event → SharedMem
  | [] => m
  | e :: es =>
    applyTrace (match e.storeEffect with
      | some v => SharedMem.mk v
      | none => m) es

/-- Events on which a thread would block or wait for I/O. No primitive of
the crate emits one. -/
def Event.isBlocking : Event → Bool
  | Event.blockingWait => true
  | Event.ioWait => true
  | _ => false

/-- A trace is non-blocking and bounded when it contains no blocking or
I/O event and has at most two events. -/
def BoundedTrace (t : List Event) : Prop :=
  t.all (fun e => !e.isBlocking) = true ∧ t.length ≤ 2

/-- The heap holding the leaked boxes: a fresh-address counter and the
contents at each address. A Rust allocation is never at address 0, so a
well-formed heap has a positive counter. -/
structure Heap (T : Type) where
  next : Nat
  mem : Nat → Option T

/-- The empty heap, before any box is leaked; fresh addresses start at 1
because a Rust Box never has the null address. -/
def Heap.init {T : Type} : Heap T :=
  Heap.mk 1 (fun _ => none)

/-- Well-formedness: the fresh-address counter is positive, so every
address the heap ever hands out is non-null. -/
def Heap.WF {T : Type} (h : Heap T) : Prop :=
  0 < h.next

/-- Box::leak(val): turns the owned box into a stable address that is
never deallocated. Modelled as allocating the fresh address for val. -/
def Heap.leak {T : Type} (h : Heap T) (v : T) : Nat × Heap T :=
  (h.next,
   Heap.mk (h.next + 1) (fun a => if a = h.next then some v else h.mem a))

/-- RcuPtr of T wraps one SharedMem whose word is read as either the null
sentinel or the address of a published T (the PhantomData marker is the
type parameter). -/
structure RcuPtr (T : Type) where
  ptr : SharedMem

/-- RcuPtr::new(): the backing cell starts at null_mut() as usize, which
is the numeric value 0. -/
def RcuPtr.new {T : Type} : RcuPtr T :=
  RcuPtr.mk (SharedMem.new 0)

/-- RcuPtr::rcu_dereference, the C rcu_dereference(): one read_once on the
backing cell; NonNull::new returns None exactly when the word read is 0,
otherwise as_ref yields the borrowed reference, modelled by its address.
The state is untouched; the trace is the trace of the read. -/
def RcuPtr.rcu_dereference {T : Type} (p : RcuPtr T) : Option Nat × List Event :=
  let r := p.ptr.read_once
  ((if r.1 = 0 then none else some r.1), r.2)

/-- RcuPtr::rcu_assign_pointer, the C rcu_assign_pointer(): leaks the box
to obtain its stable address, then smp_store_release of that address into
the backing cell. Returns the updated pointer, the updated heap, and the
trace of the release store. -/
def RcuPtr.rcu_assign_pointer {T : Type} (p : RcuPtr T) (arch : Arch)
    (h : Heap T) (v : T) : RcuPtr T × Heap T × List Event :=
  let addr := (h.leak v).1
  let h2 := (h.leak v).2
  let st := p.ptr.smp_store_release arch addr
  (RcuPtr.mk st.1, h2, st.2)

/-- States of an RcuPtr and its heap on which at least one
rcu_assign_pointer has completed, starting from a well-formed heap. -/
inductive Published {T : Type} (arch : Arch) : RcuPtr T → Heap T → Prop where
  | first (p : RcuPtr T) (h : Heap T) (v : T) : h.WF →
      Published arch (p.rcu_assign_pointer arch h v).1
        (p.rcu_assign_pointer arch h v).2.1
  | again (p : RcuPtr T) (h : Heap T) (v : T) : Published arch p h →
      Published arch (p.rcu_assign_pointer arch h v).1
        (p.rcu_assign_pointer arch h v).2.1

/-- Iterated rcu_dereference: the list of the results of n successive
calls (the operation reads but never writes the cell or the heap, so no
state is threaded). -/
def derefN {T : Type} (p : RcuPtr T) : Nat → List (Option Nat)
  | 0 => []
  | Nat.succ n => (p.rcu_dereference).1 :: derefN p n

/-- On a supported architecture, rcu_assign_pointer stores the leaked
address into the backing cell. -/
theorem rcu_assign_ptr_value {T : Type} (arch : Arch) (p : RcuPtr T)
    (h : Heap T) (v : T) (hs : arch.supported) :
    ((p.rcu_assign_pointer arch h v).1).ptr.value = (h.leak v).1 := by
  rcases hs with h1 | h1 <;> subst h1 <;> rfl

/-- The heap returned by rcu_assign_pointer is the heap after the leak,
on every architecture. -/
theorem rcu_assign_heap_eq {T : Type} (arch : Arch) (p : RcuPtr T)
    (h : Heap T) (v : T) :
    (p.rcu_assign_pointer arch h v).2.1 = (h.leak v).2 := rfl

/-- Leaking preserves heap well-formedness. -/
theorem Heap.leak_WF {T : Type} (h : Heap T) (v : T) :
    ((h.leak v).2).WF := by
  simp [Heap.leak, Heap.WF]

/-- The result of rcu_dereference is determined by the backing word: none
exactly when the word is 0, otherwise some of the word. -/
theorem rcu_dereference_eq {T : Type} (p : RcuPtr T) :
    (p.rcu_dereference).1 =
      (if p.ptr.value = 0 then none else some p.ptr.value) := rfl

/-- C1: publishing a box holding v via rcu_assign_pointer on a supported
architecture and a well-formed heap makes a subsequent rcu_dereference
with no intervening publish return Some reference, and reading the heap
at that reference's address yields exactly v: the published object
round-trips through the pointer. -/
theorem publish_then_dereference_roundtrip {T : Type} (arch : Arch)
    (p : RcuPtr T) (h : Heap T) (v : T)
    (hs : arch.supported) (hw : h.WF) :
    ∃ a : Nat,
      (((p.rcu_assign_pointer arch h v).1).rcu_dereference).1 = some a ∧
      ((p.rcu_assign_pointer arch h v).2.1).mem a = some v := by
  refine ⟨(h.leak v).1, ?_, ?_⟩
  · have hv := rcu_assign_ptr_value arch p h v hs
    have hne : (h.leak v).1 ≠ 0 := Nat.pos_iff_ne_zero.mp hw
    rw [rcu_dereference_eq, hv, if_neg hne]
  · rw [rcu_assign_heap_eq]
    simp [Heap.leak]

/-- C1 witness: a concrete publish of 7 into a fresh pointer on x86_64
dereferences to an address holding 7. -/
theorem publish_then_dereference_roundtrip_witness :
    ∃ a : Nat,
      ((((RcuPtr.new (T := Nat)).rcu_assign_pointer Arch.x86_64 Heap.init
          7).1).rcu_dereference).1 = some a ∧
      (((RcuPtr.new (T := Nat)).rcu_assign_pointer Arch.x86_64 Heap.init
          7).2.1).mem a = some 7 :=
  publish_then_dereference_roundtrip Arch.x86_64 RcuPtr.new Heap.init 7
    (Or.inr rfl) Nat.one_pos

/-- C2: on a freshly constructed RcuPtr, rcu_dereference called any number
of times before any rcu_assign_pointer returns none every time: the n
results are n copies of the not-published outcome. -/
theorem dereference_before_publish_none {T : Type} :
    ∀ n : Nat, derefN (RcuPtr.new (T := T)) n = List.replicate n none := by
  intro n
  induction n with
  | zero => rfl
  | succ k ih =>
    simp [derefN, List.replicate, ih]
    rfl

/-- C3: read_once on a cell built by SharedMem::new(i) with no intervening
write returns i, and read_once immediately after write_once(v) on any cell
returns v: the cell holds exactly the most recently written word. -/
theorem read_once_last_write (m : SharedMem) (i v : Nat) :
    ((SharedMem.new i).read_once).1 = i ∧
    (((m.write_once v).1).read_once).1 = v :=
  ⟨rfl, rfl⟩

/-- C4 counterexample: the claim that every unsupported target fails to
build is false: the riscv64 target is neither of the two supported
architectures, yet the crate builds for it (and its smp_mb is empty). -/
theorem unsupported_arch_counterexample :
    ¬ (∀ a : Arch, a ≠ Arch.aarch64 → a ≠ Arch.x86_64 →
        compiles a = false) := by
  intro hcl
  have hfalse := hcl (Arch.other "riscv64") (by decide) (by decide)
  simp [compiles] at hfalse

/-- C4 amended: the build-time selection is total over the two supported
targets, each of which gets a hardware encoding of the barrier and a
release store that really stores; but on every other target the crate
still builds, smp_mb compiles to nothing, and smp_store_release leaves
the cell untouched and emits no instruction: a silent no-op fallback, not
a build error. -/
theorem arch_selection_total_with_noop_fallback :
    SharedMem.smp_mb Arch.aarch64 = [Event.dmb_ish] ∧
    SharedMem.smp_mb Arch.x86_64 = [Event.mfence] ∧
    (∀ (m : SharedMem) (v : Nat),
      ((m.smp_store_release Arch.aarch64 v).1.value = v) ∧
      ((m.smp_store_release Arch.x86_64 v).1.value = v)) ∧
    (∀ s : String,
      compiles (Arch.other s) = true ∧
      SharedMem.smp_mb (Arch.other s) = [] ∧
      ∀ (m : SharedMem) (v : Nat),
        m.smp_store_release (Arch.other s) v = (m, [])) := by
  refine ⟨rfl, rfl, ?_, ?_⟩
  · intro m v
    exact ⟨rfl, rfl⟩
  · intro s
    exact ⟨rfl, rfl, fun m v => rfl⟩

/-- C5: on x86_64 the release store degrades to write_once preceded by a
compiler-ordering fence: the resulting cell contents are extensionally
those of write_once, and the trace is exactly the compiler fence followed
by the write_once trace. -/
theorem smp_store_release_x86_64_is_write_once (m : SharedMem) (v : Nat) :
    (m.smp_store_release Arch.x86_64 v).1 = (m.write_once v).1 ∧
    (m.smp_store_release Arch.x86_64 v).2 =
      Event.compilerFence :: (m.write_once v).2 :=
  ⟨rfl, rfl⟩

/-- C6: smp_mb has no data effect: on every architecture, replaying its
trace against any SharedMem cell leaves the contents unchanged, and hence
any RcuPtr, whose state is its backing cell, is unchanged as well; the
operation produces only its trace and no value. -/
theorem smp_mb_no_data_effect {T : Type} (arch : Arch) (m : SharedMem)
    (p : RcuPtr T) :
    applyTrace m (SharedMem.smp_mb arch) = m ∧
    RcuPtr.mk (T := T) (applyTrace p.ptr (SharedMem.smp_mb arch)) = p := by
  cases arch <;> exact ⟨rfl, rfl⟩

/-- C9: every core operation terminates unconditionally (each is a total
function of its inputs) and its instruction trace is finite, with at most
two events, none of which is a blocking wait or an I/O wait; the
constructors perform no event at all. -/
theorem core_operations_bounded_nonblocking {T : Type} (arch : Arch)
    (m : SharedMem) (v : Nat) (p : RcuPtr T) (h : Heap T) (x : T) :
    BoundedTrace (m.read_once).2 ∧
    BoundedTrace (m.write_once v).2 ∧
    BoundedTrace (SharedMem.smp_mb arch) ∧
    BoundedTrace (m.smp_store_release arch v).2 ∧
    BoundedTrace (p.rcu_dereference).2 ∧
    BoundedTrace (p.rcu_assign_pointer arch h x).2.2 := by
  cases arch <;>
    refine ⟨⟨rfl, ?_⟩, ⟨rfl, ?_⟩, ⟨rfl, ?_⟩, ⟨rfl, ?_⟩, ⟨rfl, ?_⟩,
      ⟨rfl, ?_⟩⟩ <;>
    simp [SharedMem.read_once, SharedMem.write_once, SharedMem.smp_mb,
      SharedMem.smp_store_release, RcuPtr.rcu_dereference,
      RcuPtr.rcu_assign_pointer]

/-- C10: the null sentinel is exactly the word 0: a fresh RcuPtr's cell
holds 0, rcu_dereference returns none exactly when the cell holds 0, and
on a supported architecture every state reached by at least one completed
rcu_assign_pointer from a well-formed heap dereferences to some, never
none, because a leaked box's address is never 0. -/
theorem null_sentinel_and_published_some {T : Type} (arch : Arch)
    (hs : arch.supported) :
    (RcuPtr.new (T := T)).ptr.value = 0 ∧
    (∀ p : RcuPtr T, (p.rcu_dereference).1 = none ↔ p.ptr.value = 0) ∧
    (∀ (p : RcuPtr T) (h : Heap T), Published arch p h →
      (p.rcu_dereference).1 ≠ none) := by
  refine ⟨rfl, ?_, ?_⟩
  · intro p
    rw [rcu_dereference_eq]
    by_cases h0 : p.ptr.value = 0 <;> simp [h0]
  · intro p h hp
    have key : h.WF ∧ p.ptr.value ≠ 0 := by
      induction hp with
      | first p0 h0 v hw =>
        constructor
        · rw [rcu_assign_heap_eq]
          exact Heap.leak_WF h0 v
        · rw [rcu_assign_ptr_value arch p0 h0 v hs]
          exact Nat.pos_iff_ne_zero.mp hw
      | again p0 h0 v hp0 ih =>
        constructor
        · rw [rcu_assign_heap_eq]
          exact Heap.leak_WF h0 v
        · rw [rcu_assign_ptr_value arch p0 h0 v hs]
          exact Nat.pos_iff_ne_zero.mp ih.1
    rw [rcu_dereference_eq, if_neg key.2]
    exact Option.some_ne_none _

/-- C10 witness: concretely on x86_64, a fresh pointer dereferences to
none, and after one publish of 5 it dereferences to some. -/
theorem null_sentinel_and_published_some_witness :
    ((RcuPtr.new (T := Nat)).rcu_dereference).1 = none ∧
    ((((RcuPtr.new (T := Nat)).rcu_assign_pointer Arch.x86_64 Heap.init
        5).1).rcu_dereference).1 ≠ none := by
  have hmain := null_sentinel_and_published_some (T := Nat) Arch.x86_64
    (Or.inr rfl)
  constructor
  · exact (hmain.2.1 RcuPtr.new).mpr rfl
  · exact hmain.2.2 _ _ (Published.first RcuPtr.new Heap.init 5 Nat.one_pos)
